import Mathlib

/-!
# Verification of the spotify-youtube-playlist-porter transfer pipeline

Shallow embedding of the cross-service playlist transfer pipeline:
the Spotify catalog client (`src/spotify.ts`), the YouTube catalog client
(`youtube.ts`), the transfer orchestrator (`transfer.ts`) and the playlist
selection logic of the CLI entry point.

Network I/O is modelled by explicit response oracles: each HTTP call a
function makes is represented by the response the remote service returns
(`Except` for calls whose failure is thrown by the HTTP client, a plain
value otherwise), and the embedded function computes exactly what the
TypeScript code computes from that response.  Console logging is not
modelled; observable side effects (which remote calls are issued, with
which arguments) are collected in an explicit `Effect` trace.
-/

namespace Porter

/-- An artist entry of a Spotify track: `artists: { name: string }[]`. -/
structure Artist where
  name : String
  deriving Repr, DecidableEq

/-- The non-null payload of a Spotify playlist-track entry
(`track(id,name,artists(name),album(name),duration_ms)`). -/
structure TrackData where
  id : String
  name : String
  artists : List Artist
  album : String
  duration_ms : Nat
  deriving Repr, DecidableEq

/-- A Spotify playlist-track listing entry; the `track` field is `null`
for unavailable (e.g. region-locked or deleted) tracks. -/
structure SpotifyTrack where
  track : Option TrackData
  deriving Repr, DecidableEq

/-- A Spotify playlist as used by the transfer pipeline. -/
structure SpotifyPlaylist where
  id : String
  name : String
  description : String
  ownerId : String
  trackCount : Nat
  deriving Repr, DecidableEq

/-- A YouTube search result item (`id.videoId`, `snippet.title`,
`snippet.channelTitle`). -/
structure YouTubeVideo where
  videoId : String
  title : String
  channelTitle : String
  deriving Repr, DecidableEq

/-- The error payload the YouTube API attaches to a failed
`playlistItems.insert` call: `error.errors[0].reason` together with
whether `error.message` contains the "video owner has disabled comments"
text checked by `addVideoToYouTubePlaylist`. -/
structure AddError where
  reason : Option String
  messageHasCommentsDisabled : Bool
  deriving Repr, DecidableEq

/-! ## Source catalog client: `getPlaylistTracksSpotify` (`src/spotify.ts`)

The function follows the `next` cursor, filtering each page's items by
`item.track !== null` and concatenating; any page request error makes the
whole call throw (`Could not fetch tracks for playlist …`).  A fetch is
modelled by the list of successive page responses. -/

/-- One loop iteration's test: `item.track !== null`. -/
def trackIsAvailable (item : SpotifyTrack) : Bool :=
  item.track.isSome

/-- The paging loop of `getPlaylistTracksSpotify`: each page's items are
filtered by `item.track !== null` and appended; an erroring page request
throws out of the whole call. -/
def fetchTrackPages : List (Except String (List SpotifyTrack)) →
    Except String (List SpotifyTrack)
  | [] => .ok []
  | .error e :: _ => .error e
  | .ok page :: rest =>
    match fetchTrackPages rest with
    | .error e => .error e
    | .ok tail => .ok (page.filter trackIsAvailable ++ tail)

/-! ## Destination catalog client (`youtube.ts`) -/

/-- The query-string parameters `searchYouTubeVideo` sends to
`GET /search`. -/
structure SearchParams where
  part : String
  q : String
  type : String
  videoCategoryId : String
  maxResults : Nat
  deriving Repr, DecidableEq

/-- The request parameters built by `searchYouTubeVideo`:
`{ part: "snippet", q: trackName + " " + artistName, type: "video",
videoCategoryId: "10", maxResults: 5 }`. -/
def searchParams (trackName artistName : String) : SearchParams :=
  { part := "snippet"
    q := trackName ++ " " ++ artistName
    type := "video"
    videoCategoryId := "10"
    maxResults := 5 }

/-- `searchYouTubeVideo` applied to the response of its `GET /search`
call: on success, the first item of a non-empty result list; `null` on an
empty result list and `null` on a request error (the catch swallows the
error). -/
def searchYouTubeVideo (resp : Except String (List YouTubeVideo)) :
    Option YouTubeVideo :=
  match resp with
  | .ok items => if items.length > 0 then items.head? else none
  | .error _ => none

/-- The `snippet`/`status` body `createYouTubePlaylist` posts to
`/playlists`. -/
structure PlaylistInsertBody where
  title : String
  description : String
  privacyStatus : String
  deriving Repr, DecidableEq

/-- The request body built by `createYouTubePlaylist`: the description
falls back to `` `Playlist migrated from Spotify - ${title}` `` when the
passed description is empty (JS falsy), and the playlist is created as
`private`. -/
def createPlaylistBody (title description : String) : PlaylistInsertBody :=
  { title := title
    description :=
      if description = "" then "Playlist migrated from Spotify - " ++ title
      else description
    privacyStatus := "private" }

/-- `createYouTubePlaylist` applied to the response of its POST: the new
playlist's id on success, `null` on any request error (the catch swallows
the error). -/
def createYouTubePlaylist (resp : Except String String) : Option String :=
  match resp with
  | .ok playlistId => some playlistId
  | .error _ => none

/-- `addVideoToYouTubePlaylist` applied to the response of its
`/playlistItems` POST: `true` on success; on an error whose reason is
`"duplicate"` or `"playlistItemDuplicate"` also `true` (already present is
treated as success); on a `"forbidden"` error mentioning disabled comments
`false`; on any other error `false`. -/
def addVideoToYouTubePlaylist (resp : Except AddError Unit) : Bool :=
  match resp with
  | .ok _ => true
  | .error e =>
    if e.reason = some "duplicate" ∨ e.reason = some "playlistItemDuplicate" then
      true
    else if e.reason = some "forbidden" ∧ e.messageHasCommentsDisabled then
      false
    else
      false

/-! ## Matcher: the query built for the YouTube search

`transfer.ts` joins the artist names with `", "`; `searchYouTubeVideo`
interpolates `` `${trackName} ${artistName}` ``. -/

/-- `track.artists.map((a) => a.name).join(", ")` from `transfer.ts`. -/
def artistNamesOf (artists : List Artist) : String :=
  String.intercalate ", " (artists.map Artist.name)

/-- The search query assembled across the two files: the comma-joined
artist names from `transfer.ts` substituted into the template of
`searchYouTubeVideo`. -/
def buildQuery (title : String) (performers : List Artist) : String :=
  (searchParams title (artistNamesOf performers)).q

/-! ## Transfer orchestrator (`transfer.ts`)

`transferPlaylist` fetches the playlist's tracks (uncaught throw on
fetch error), returns early when the list is empty, creates the YouTube
playlist (early return when creation yields `null`), then iterates the
tracks sequentially, classifying each into added / not found / failed.

The remote side is an oracle `Env` giving each call's response; the
orchestrator's remote calls are recorded as an `Effect` trace. -/

/-- One remote call issued by the pipeline, with its arguments. -/
inductive Effect where
  | FetchTracks (playlistId : String)
  | CreatePlaylist (title description : String)
  | Search (query : String)
  | AddVideo (playlistId videoId : String)
  deriving Repr, DecidableEq

/-- The per-track outcome of the transfer loop: which counter the
iteration increments (and, for an added track, the video id). -/
inductive TransferOutcome where
  | Added (videoId : String)
  | NotFound
  | AddFailed
  deriving Repr, DecidableEq

/-- The counters accumulated by the transfer loop and logged in the final
summary. -/
structure TransferReport where
  addedCount : Nat
  notFoundCount : Nat
  failedCount : Nat
  deriving Repr, DecidableEq

/-- How a `transferPlaylist` invocation ends when it does not throw:
early return on an empty track list, early return on a failed playlist
creation, or the full loop with its final counters. -/
inductive TransferResult where
  | Skipped
  | CreateFailed
  | Done (youtubePlaylistId : String) (report : TransferReport)
  deriving Repr, DecidableEq

/-- Response oracle for the remote services.  `trackPages` gives the
successive page responses of the playlist-tracks fetch; `createResp` the
response to the playlist-creation POST; `searchResp` and `addResp` the
responses to the search and playlist-item insert issued at loop index
`i` (each loop iteration performs at most one of each). -/
structure Env where
  trackPages : String → List (Except String (List SpotifyTrack))
  createResp : String → String → Except String String
  searchResp : Nat → String → Except String (List YouTubeVideo)
  addResp : Nat → String → String → Except AddError Unit

/-- One iteration of the track loop of `transferPlaylist` at index `i`:
skip (`continue`) when `item.track` is null, otherwise search and, when a
video was found, add it; returns the effects issued and the outcome (the
counter incremented), `none` for a skipped null entry. -/
def trackStep (env : Env) (youtubePlaylistId : String) (i : Nat)
    (item : SpotifyTrack) : List Effect × Option TransferOutcome :=
  match item.track with
  | none => ([], none)
  | some track =>
    let artistNames := artistNamesOf track.artists
    let query := (searchParams track.name artistNames).q
    match searchYouTubeVideo (env.searchResp i query) with
    | some youtubeVideo =>
      if addVideoToYouTubePlaylist
          (env.addResp i youtubePlaylistId youtubeVideo.videoId) then
        ([.Search query, .AddVideo youtubePlaylistId youtubeVideo.videoId],
         some (.Added youtubeVideo.videoId))
      else
        ([.Search query, .AddVideo youtubePlaylistId youtubeVideo.videoId],
         some .AddFailed)
    | none => ([.Search query], some .NotFound)

/-- The outcome of every loop iteration, in source order (`none` for the
skipped null entries). -/
def transferOutcomes (env : Env) (youtubePlaylistId : String) :
    Nat → List SpotifyTrack → List (Option TransferOutcome)
  | _, [] => []
  | i, item :: rest =>
    (trackStep env youtubePlaylistId i item).2 ::
      transferOutcomes env youtubePlaylistId (i + 1) rest

/-- The effect trace of the track loop, in source order. -/
def transferEffects (env : Env) (youtubePlaylistId : String) :
    Nat → List SpotifyTrack → List Effect
  | _, [] => []
  | i, item :: rest =>
    (trackStep env youtubePlaylistId i item).1 ++
      transferEffects env youtubePlaylistId (i + 1) rest

/-- The counter increment a loop iteration performs
(`addedCount++` / `notFoundCount++` / `failedCount++`, nothing for a
skipped null entry). -/
def reportStep (r : TransferReport) : Option TransferOutcome → TransferReport
  | none => r
  | some (.Added _) => { r with addedCount := r.addedCount + 1 }
  | some .NotFound => { r with notFoundCount := r.notFoundCount + 1 }
  | some .AddFailed => { r with failedCount := r.failedCount + 1 }

/-- The counters after the whole loop, starting from
`addedCount = notFoundCount = failedCount = 0`. -/
def reportOf (outcomes : List (Option TransferOutcome)) : TransferReport :=
  outcomes.foldl reportStep ⟨0, 0, 0⟩

/-- The description `transferPlaylist` hands to `createYouTubePlaylist`:
`` spotifyPlaylist.description || `Migrated from Spotify: ${name}` ``. -/
def newPlaylistDescription (p : SpotifyPlaylist) : String :=
  if p.description = "" then "Migrated from Spotify: " ++ p.name
  else p.description

/-- `transferPlaylist` for one playlist: the effect trace and either the
uncaught fetch error (`Except.error`) or how the function returned. -/
def transferPlaylist (env : Env) (p : SpotifyPlaylist) :
    List Effect × Except String TransferResult :=
  match fetchTrackPages (env.trackPages p.id) with
  | .error e => ([.FetchTracks p.id], .error e)
  | .ok spotifyTracks =>
    if spotifyTracks.length = 0 then
      ([.FetchTracks p.id], .ok .Skipped)
    else
      let newPlaylistTitle := p.name
      let desc := newPlaylistDescription p
      match createYouTubePlaylist (env.createResp newPlaylistTitle desc) with
      | none =>
        ([.FetchTracks p.id, .CreatePlaylist newPlaylistTitle desc],
         .ok .CreateFailed)
      | some youtubePlaylistId =>
        ([.FetchTracks p.id, .CreatePlaylist newPlaylistTitle desc] ++
           transferEffects env youtubePlaylistId 0 spotifyTracks,
         .ok (.Done youtubePlaylistId
           (reportOf (transferOutcomes env youtubePlaylistId 0 spotifyTracks))))

/-- The outer loop of the `transfer` CLI command:
`for (const playlist of playlistsToTransfer) await transferPlaylist(…)`.
There is no try/catch around the loop body, so an error thrown by
`transferPlaylist` escapes and ends the run. -/
def runTransfers (env : Env) : List SpotifyPlaylist →
    List Effect × Except String Unit
  | [] => ([], .ok ())
  | p :: rest =>
    match transferPlaylist env p with
    | (effs, .error e) => (effs, .error e)
    | (effs, .ok _) =>
      match runTransfers env rest with
      | (effs2, r2) => (effs ++ effs2, r2)

/-! ## Playlist selection (`transfer` command action) -/

/-- `--playlist <ids...>` selection:
`allSpotifyPlaylists.filter((p) => options.playlist.includes(p.id))`. -/
def selectByIds (allPlaylists : List SpotifyPlaylist)
    (requested : List String) : List SpotifyPlaylist :=
  allPlaylists.filter (fun p => requested.contains p.id)

/-- The warned-about ids:
`options.playlist.filter((id) => !playlistsToTransfer.some((p) => p.id === id))`. -/
def notFoundIds (allPlaylists : List SpotifyPlaylist)
    (requested : List String) : List String :=
  requested.filter
    (fun i => !(selectByIds allPlaylists requested).any (fun p => p.id = i))

/-- `--all` selection: `playlistsToTransfer = allSpotifyPlaylists`. -/
def selectAllPlaylists (allPlaylists : List SpotifyPlaylist) :
    List SpotifyPlaylist :=
  allPlaylists

/-! ## Concrete runs used as witnesses -/

/-- A playlist-track entry with the given title and one fixed artist. -/
def sampleTrack (title : String) : SpotifyTrack :=
  ⟨some ⟨"id-" ++ title, title, [⟨"Artist"⟩], "Album", 200000⟩⟩

/-- A search result for the sample tracks. -/
def videoA : YouTubeVideo := ⟨"vid0", "Song One video", "Chan"⟩

/-- The track data of `sampleTrack "Song One"`. -/
def trackDataOne : TrackData :=
  ⟨"id-Song One", "Song One", [⟨"Artist"⟩], "Album", 200000⟩

instance {ε α : Type} [DecidableEq ε] [DecidableEq α] :
    DecidableEq (Except ε α) := fun x y =>
  match x, y with
  | .ok a, .ok b =>
    if h : a = b then .isTrue (by rw [h]) else .isFalse (by simp [h])
  | .error a, .error b =>
    if h : a = b then .isTrue (by rw [h]) else .isFalse (by simp [h])
  | .ok _, .error _ => .isFalse (by simp)
  | .error _, .ok _ => .isFalse (by simp)

/-- A sample playlist whose Spotify description is empty. -/
def playlistA : SpotifyPlaylist := ⟨"sp1", "My Mix", "", "owner", 3⟩

/-- A second sample playlist. -/
def playlistB : SpotifyPlaylist := ⟨"sp2", "Second", "desc", "owner", 1⟩

/-- An environment where everything succeeds: one page with two available
tracks and one null entry, the search finds `videoA` for loop index 0 and
nothing afterwards, and every add succeeds. -/
def envA : Env :=
  { trackPages := fun _ =>
      [.ok [sampleTrack "Song One", ⟨none⟩, sampleTrack "Song Two"]]
    createResp := fun _ _ => .ok "YTPL1"
    searchResp := fun i _ => if i = 0 then .ok [videoA] else .ok []
    addResp := fun _ _ _ => .ok () }

/-- An environment whose tracks fetch throws for playlist `sp1` and
succeeds for every other playlist. -/
def envFetchFail : Env :=
  { trackPages := fun playlistId =>
      if playlistId = "sp1" then
        [.error "Could not fetch tracks for playlist sp1."]
      else [.ok [sampleTrack "Song One"]]
    createResp := fun _ _ => .ok "YTPL1"
    searchResp := fun _ _ => .ok [videoA]
    addResp := fun _ _ _ => .ok () }

/-- The duplicate-detection error payload of the YouTube API. -/
def dupError : AddError := ⟨some "duplicate", false⟩

/-- An environment where the same track occurs twice, both searches find
`videoA`, the first add succeeds and the second is rejected as a
duplicate. -/
def envDup : Env :=
  { trackPages := fun _ => [.ok [sampleTrack "Song One", sampleTrack "Song One"]]
    createResp := fun _ _ => .ok "YTPL1"
    searchResp := fun _ _ => .ok [videoA]
    addResp := fun i _ _ => if i = 0 then .ok () else .error dupError }

/-- An environment whose playlist-creation POST fails. -/
def envCreateFail : Env :=
  { trackPages := fun _ => [.ok [sampleTrack "Song One"]]
    createResp := fun _ _ => .error "quotaExceeded"
    searchResp := fun _ _ => .ok [videoA]
    addResp := fun _ _ _ => .ok () }

/-- An environment whose playlists have no tracks, and whose search finds
nothing at index 0 and errors at every other index. -/
def envEmpty : Env :=
  { trackPages := fun _ => [.ok []]
    createResp := fun _ _ => .ok "YTPL1"
    searchResp := fun i _ => if i = 0 then .ok [] else .error "searchDown"
    addResp := fun _ _ _ => .ok () }

/-! ## Helper lemmas -/

/-- The sum of the three counters of a report. -/
def reportSum (r : TransferReport) : Nat :=
  r.addedCount + r.notFoundCount + r.failedCount

theorem trackStep_isSome (env : Env) (pid : String) (i : Nat)
    (item : SpotifyTrack) :
    (trackStep env pid i item).2.isSome = trackIsAvailable item := by
  unfold trackStep trackIsAvailable
  match item with
  | ⟨none⟩ => rfl
  | ⟨some track⟩ =>
    simp only
    split
    · split <;> rfl
    · rfl

theorem transferOutcomes_isSome (env : Env) (pid : String) (i : Nat)
    (tracks : List SpotifyTrack) :
    (transferOutcomes env pid i tracks).map Option.isSome =
      tracks.map trackIsAvailable := by
  induction tracks generalizing i with
  | nil => rfl
  | cons item rest ih =>
    simp only [transferOutcomes, List.map_cons, trackStep_isSome, ih]

theorem reportSum_step (r : TransferReport) (o : Option TransferOutcome) :
    reportSum (reportStep r o) =
      reportSum r + (if o.isSome then 1 else 0) := by
  match o with
  | none => rfl
  | some (.Added v) => simp [reportStep, reportSum]; omega
  | some .NotFound => simp [reportStep, reportSum]; omega
  | some .AddFailed => simp [reportStep, reportSum]; omega

theorem reportSum_foldl (outcomes : List (Option TransferOutcome))
    (r : TransferReport) :
    reportSum (outcomes.foldl reportStep r) =
      reportSum r + (outcomes.filter Option.isSome).length := by
  induction outcomes generalizing r with
  | nil => simp
  | cons o rest ih =>
    rw [List.foldl_cons, ih, reportSum_step]
    by_cases h : o.isSome
    · simp [List.filter_cons, h]
      omega
    · simp [List.filter_cons, h]

theorem reportSum_reportOf (outcomes : List (Option TransferOutcome)) :
    reportSum (reportOf outcomes) = (outcomes.filter Option.isSome).length := by
  unfold reportOf
  rw [reportSum_foldl]
  simp [reportSum]

theorem transferOutcomes_countSome (env : Env) (pid : String) (i : Nat)
    (tracks : List SpotifyTrack) :
    ((transferOutcomes env pid i tracks).filter Option.isSome).length =
      (tracks.filter trackIsAvailable).length := by
  induction tracks generalizing i with
  | nil => rfl
  | cons item rest ih =>
    simp only [transferOutcomes, List.filter_cons, trackStep_isSome]
    by_cases h : trackIsAvailable item <;> simp [h, ih]

theorem prefixed_ne_empty (s t : String) (hs : s.length ≠ 0) :
    s ++ t ≠ "" := by
  intro h
  have h2 := congrArg String.length h
  simp [String.length_append] at h2
  exact hs h2.1

theorem createEffect_not_in_trackStep (env : Env) (pid : String) (i : Nat)
    (item : SpotifyTrack) (ti d : String) :
    Effect.CreatePlaylist ti d ∉ (trackStep env pid i item).1 := by
  unfold trackStep
  match item with
  | ⟨none⟩ => simp
  | ⟨some track⟩ =>
    simp only
    split
    · split <;> simp
    · simp

theorem createEffect_not_in_transferEffects (env : Env) (pid : String)
    (ti d : String) (i : Nat) (tracks : List SpotifyTrack) :
    Effect.CreatePlaylist ti d ∉ transferEffects env pid i tracks := by
  induction tracks generalizing i with
  | nil => simp [transferEffects]
  | cons item rest ih =>
    simp only [transferEffects, List.mem_append]
    intro hmem
    rcases hmem with hmem | hmem
    · exact createEffect_not_in_trackStep env pid i item ti d hmem
    · exact ih (i + 1) hmem

/-! ## Claim theorems -/

/-- Claim C4: the paginated track listing returns exactly the entries
whose underlying item is non-null, in the same relative order (the
available-filter of the concatenated pages), and a null entry reaching
the transfer loop is skipped with no outcome and no remote call. -/
theorem listPlaylistTracks_filters (pages : List (List SpotifyTrack)) :
    fetchTrackPages (pages.map Except.ok) =
      .ok (pages.flatten.filter trackIsAvailable) ∧
    ∀ env pid i, trackStep env pid i ⟨none⟩ = ([], none) := by
  constructor
  · induction pages with
    | nil => rfl
    | cons page rest ih =>
      simp only [List.map_cons, fetchTrackPages, ih, List.flatten_cons,
        List.filter_append]
  · intro env pid i
    rfl

/-- Claim C9: the search query is a deterministic pure function of the
title and performers: the title, a single space, then the performer names
comma-joined, in that order. -/
theorem buildQuery_concat (title : String) (performers : List Artist)
    (a b : Artist) :
    buildQuery title performers =
      title ++ " " ++ String.intercalate ", " (performers.map Artist.name) ∧
    buildQuery title [] = title ++ " " ∧
    buildQuery title [a, b] = title ++ " " ++ a.name ++ ", " ++ b.name := by
  refine ⟨rfl, ?_, ?_⟩
  · simp [buildQuery, searchParams, artistNamesOf, String.intercalate]
  · simp [buildQuery, searchParams, artistNamesOf, String.intercalate,
      String.intercalate.go, String.append_assoc]

/-- Claim C5: the search requests a result window of exactly 5, returns
the first result unmodified when the result set is non-empty, and returns
null both on an empty result set and on a request error; the transfer
loop classifies null from either cause identically as not-found. -/
theorem search_first_or_null (trackName artistName : String)
    (v : YouTubeVideo) (vs : List YouTubeVideo) (err : String)
    (env : Env) (pid : String) (i j : Nat) (track : TrackData)
    (hempty : env.searchResp i
      (searchParams track.name (artistNamesOf track.artists)).q = .ok [])
    (herr : env.searchResp j
      (searchParams track.name (artistNamesOf track.artists)).q = .error err) :
    (searchParams trackName artistName).maxResults = 5 ∧
    searchYouTubeVideo (.ok (v :: vs)) = some v ∧
    searchYouTubeVideo (.ok []) = none ∧
    searchYouTubeVideo (.error err) = none ∧
    (trackStep env pid i ⟨some track⟩).2 = some .NotFound ∧
    (trackStep env pid j ⟨some track⟩).2 = some .NotFound := by
  refine ⟨rfl, by simp [searchYouTubeVideo], rfl, rfl, ?_, ?_⟩
  · simp [trackStep, hempty, searchYouTubeVideo]
  · simp [trackStep, herr, searchYouTubeVideo]

/-- Witness for `search_first_or_null`: the concrete environment
`envEmpty` returns an empty result set at loop index 0 and a request
error at index 1; both give the not-found outcome. -/
theorem search_first_or_null_witness :
    (searchParams "Song One" "Artist").maxResults = 5 ∧
    searchYouTubeVideo (.ok (videoA :: [])) = some videoA ∧
    searchYouTubeVideo (.ok []) = none ∧
    searchYouTubeVideo (.error "searchDown") = none ∧
    (trackStep envEmpty "YTPL1" 0 ⟨some trackDataOne⟩).2 = some .NotFound ∧
    (trackStep envEmpty "YTPL1" 1 ⟨some trackDataOne⟩).2 = some .NotFound :=
  search_first_or_null "Song One" "Artist" videoA [] "searchDown" envEmpty
    "YTPL1" 0 1 trackDataOne rfl rfl

/-- Claim C3: a duplicate-detection error from the destination is
success-equivalent: adding the same (playlist, item) pair twice where the
second call reports "duplicate" succeeds both times, yields the added
outcome both times, and the two outcomes are counted as two added and no
failure. -/
theorem addItem_duplicate_idempotent (env : Env) (pid : String)
    (track : TrackData) (v : YouTubeVideo) (i j : Nat) (e : AddError)
    (hdup : e.reason = some "duplicate" ∨
      e.reason = some "playlistItemDuplicate")
    (hsi : env.searchResp i
      (searchParams track.name (artistNamesOf track.artists)).q = .ok [v])
    (hsj : env.searchResp j
      (searchParams track.name (artistNamesOf track.artists)).q = .ok [v])
    (hai : env.addResp i pid v.videoId = .ok ())
    (haj : env.addResp j pid v.videoId = .error e) :
    addVideoToYouTubePlaylist (env.addResp i pid v.videoId) = true ∧
    addVideoToYouTubePlaylist (env.addResp j pid v.videoId) = true ∧
    (trackStep env pid i ⟨some track⟩).2 = some (.Added v.videoId) ∧
    (trackStep env pid j ⟨some track⟩).2 = some (.Added v.videoId) ∧
    reportOf [(trackStep env pid i ⟨some track⟩).2,
              (trackStep env pid j ⟨some track⟩).2] = ⟨2, 0, 0⟩ := by
  have h1 : addVideoToYouTubePlaylist (env.addResp i pid v.videoId) = true := by
    rw [hai]
    rfl
  have h2 : addVideoToYouTubePlaylist (env.addResp j pid v.videoId) = true := by
    rw [haj]
    unfold addVideoToYouTubePlaylist
    rcases hdup with h | h <;> simp [h]
  have h3 : (trackStep env pid i ⟨some track⟩).2 = some (.Added v.videoId) := by
    simp [trackStep, hsi, searchYouTubeVideo, h1]
  have h4 : (trackStep env pid j ⟨some track⟩).2 = some (.Added v.videoId) := by
    simp [trackStep, hsj, searchYouTubeVideo, h2]
  refine ⟨h1, h2, h3, h4, ?_⟩
  rw [h3, h4]
  rfl

/-- Witness for `addItem_duplicate_idempotent`: in `envDup` the first add
of `videoA` succeeds and the second reports "duplicate"; both count as
added. -/
theorem addItem_duplicate_idempotent_witness :
    addVideoToYouTubePlaylist (envDup.addResp 0 "YTPL1" videoA.videoId) = true ∧
    addVideoToYouTubePlaylist (envDup.addResp 1 "YTPL1" videoA.videoId) = true ∧
    (trackStep envDup "YTPL1" 0 ⟨some trackDataOne⟩).2 =
      some (.Added videoA.videoId) ∧
    (trackStep envDup "YTPL1" 1 ⟨some trackDataOne⟩).2 =
      some (.Added videoA.videoId) ∧
    reportOf [(trackStep envDup "YTPL1" 0 ⟨some trackDataOne⟩).2,
              (trackStep envDup "YTPL1" 1 ⟨some trackDataOne⟩).2] =
      ⟨2, 0, 0⟩ :=
  addItem_duplicate_idempotent envDup "YTPL1" trackDataOne videoA 0 1 dupError
    (Or.inl rfl) rfl rfl rfl rfl

/-- Claim C1: when `transferPlaylist` runs its loop after the destination
playlist was successfully created, each available track yields exactly
one outcome (the outcome list is defined exactly at the available
entries, in order) and the final counters satisfy
added + notFound + failed = number of available tracks. -/
theorem transfer_outcome_accounting (env : Env) (p : SpotifyPlaylist)
    (pid : String) (r : TransferReport) (effs : List Effect)
    (h : transferPlaylist env p = (effs, .ok (.Done pid r))) :
    ∃ tracks, fetchTrackPages (env.trackPages p.id) = .ok tracks ∧
      (transferOutcomes env pid 0 tracks).map Option.isSome =
        tracks.map trackIsAvailable ∧
      r = reportOf (transferOutcomes env pid 0 tracks) ∧
      r.addedCount + r.notFoundCount + r.failedCount =
        (tracks.filter trackIsAvailable).length := by
  cases hf : fetchTrackPages (env.trackPages p.id) with
  | error e =>
    unfold transferPlaylist at h
    rw [hf] at h
    simp at h
  | ok tracks =>
    unfold transferPlaylist at h
    rw [hf] at h
    by_cases hlen : tracks.length = 0
    · simp [hlen] at h
    · cases hc : createYouTubePlaylist
        (env.createResp p.name (newPlaylistDescription p)) with
      | none => simp [hlen, hc] at h
      | some ytid =>
        simp [hlen, hc] at h
        obtain ⟨hef, hpid, hr⟩ := h
        subst hpid
        refine ⟨tracks, rfl, transferOutcomes_isSome env ytid 0 tracks,
          hr.symm, ?_⟩
        have hsum := reportSum_reportOf (transferOutcomes env ytid 0 tracks)
        rw [transferOutcomes_countSome] at hsum
        rw [hr] at hsum
        simpa [reportSum] using hsum

/-- Witness for `transfer_outcome_accounting`: in `envA` the playlist has
two available tracks and one null entry; one is added, one not found, and
1 + 1 + 0 = 2. -/
theorem transfer_outcome_accounting_witness :
    ∃ tracks, fetchTrackPages (envA.trackPages playlistA.id) = .ok tracks ∧
      (transferOutcomes envA "YTPL1" 0 tracks).map Option.isSome =
        tracks.map trackIsAvailable ∧
      (⟨1, 1, 0⟩ : TransferReport) =
        reportOf (transferOutcomes envA "YTPL1" 0 tracks) ∧
      (⟨1, 1, 0⟩ : TransferReport).addedCount +
          (⟨1, 1, 0⟩ : TransferReport).notFoundCount +
          (⟨1, 1, 0⟩ : TransferReport).failedCount =
        (tracks.filter trackIsAvailable).length :=
  transfer_outcome_accounting envA playlistA "YTPL1" ⟨1, 1, 0⟩
    [.FetchTracks "sp1",
     .CreatePlaylist "My Mix" "Migrated from Spotify: My Mix",
     .Search "Song One Artist", .AddVideo "YTPL1" "vid0",
     .Search "Song Two Artist"]
    (by decide)

/-- Claim C2 counterexample: in `envFetchFail` the tracks fetch of
playlist `sp1` fails; the run does not continue with the next selected
playlist `sp2` (its fetch is never issued) and the whole run ends in the
thrown error, contradicting both that only that playlist is skipped and
that only an auth failure aborts the run. -/
theorem fetch_error_aborts_run_cex :
    runTransfers envFetchFail [playlistA, playlistB] =
      ([.FetchTracks "sp1"],
       .error "Could not fetch tracks for playlist sp1.") ∧
    Effect.FetchTracks "sp2" ∉
      (runTransfers envFetchFail [playlistA, playlistB]).1 ∧
    (runTransfers envFetchFail [playlistA, playlistB]).2 ≠ .ok () := by
  refine ⟨by decide, by decide, by decide⟩

/-- Claim C2 amended: when the tracks fetch of a playlist fails, the
thrown error is not caught: `transferPlaylist` propagates it and the
outer loop ends with it, so the remaining selected playlists are not
processed; the run is not limited to auth-time aborts. -/
theorem fetch_error_aborts_run (env : Env) (p : SpotifyPlaylist)
    (rest : List SpotifyPlaylist) (e : String)
    (h : fetchTrackPages (env.trackPages p.id) = .error e) :
    transferPlaylist env p = ([.FetchTracks p.id], .error e) ∧
    runTransfers env (p :: rest) = ([.FetchTracks p.id], .error e) := by
  have h1 : transferPlaylist env p = ([.FetchTracks p.id], .error e) := by
    unfold transferPlaylist
    rw [h]
  refine ⟨h1, ?_⟩
  unfold runTransfers
  rw [h1]

/-- Witness for `fetch_error_aborts_run` at `envFetchFail`. -/
theorem fetch_error_aborts_run_witness :
    transferPlaylist envFetchFail playlistA =
      ([.FetchTracks playlistA.id],
       .error "Could not fetch tracks for playlist sp1.") ∧
    runTransfers envFetchFail (playlistA :: [playlistB]) =
      ([.FetchTracks playlistA.id],
       .error "Could not fetch tracks for playlist sp1.") :=
  fetch_error_aborts_run envFetchFail playlistA [playlistB]
    "Could not fetch tracks for playlist sp1." (by decide)

/-- Claim C6: `createPlaylist` turns any request failure into null rather
than throwing, and a null result makes the orchestrator abort only that
playlist's transfer — the only effects are the fetch and the creation
attempt, no track is added — while the outer loop continues with the
remaining playlists. -/
theorem create_failure_skips_playlist (env : Env) (p : SpotifyPlaylist)
    (rest : List SpotifyPlaylist) (tracks : List SpotifyTrack) (e : String)
    (hfetch : fetchTrackPages (env.trackPages p.id) = .ok tracks)
    (hne : tracks ≠ [])
    (hcreate : env.createResp p.name (newPlaylistDescription p) = .error e) :
    createYouTubePlaylist (.error e) = none ∧
    transferPlaylist env p =
      ([.FetchTracks p.id, .CreatePlaylist p.name (newPlaylistDescription p)],
       .ok .CreateFailed) ∧
    runTransfers env (p :: rest) =
      ([.FetchTracks p.id, .CreatePlaylist p.name (newPlaylistDescription p)]
          ++ (runTransfers env rest).1,
       (runTransfers env rest).2) := by
  have hlen : ¬tracks.length = 0 := by
    simpa [List.length_eq_zero] using hne
  have h2 : transferPlaylist env p =
      ([.FetchTracks p.id, .CreatePlaylist p.name (newPlaylistDescription p)],
       .ok .CreateFailed) := by
    unfold transferPlaylist
    rw [hfetch]
    simp [hlen, hcreate, createYouTubePlaylist]
  refine ⟨rfl, h2, ?_⟩
  simp only [runTransfers]
  rw [h2]

/-- Witness for `create_failure_skips_playlist`: in `envCreateFail` the
creation POST fails; the transfer of `playlistB` stops after the creation
attempt and the run goes on with the rest. -/
theorem create_failure_skips_playlist_witness :
    createYouTubePlaylist (.error "quotaExceeded") = none ∧
    transferPlaylist envCreateFail playlistB =
      ([.FetchTracks playlistB.id,
        .CreatePlaylist playlistB.name (newPlaylistDescription playlistB)],
       .ok .CreateFailed) ∧
    runTransfers envCreateFail (playlistB :: [playlistA]) =
      ([.FetchTracks playlistB.id,
        .CreatePlaylist playlistB.name (newPlaylistDescription playlistB)]
          ++ (runTransfers envCreateFail [playlistA]).1,
       (runTransfers envCreateFail [playlistA]).2) :=
  create_failure_skips_playlist envCreateFail playlistB [playlistA]
    [sampleTrack "Song One"] "quotaExceeded" (by decide) (by decide) (by decide)

/-- Claim C7: a source playlist whose track listing is empty after
filtering takes the skipped path: the only effect is the fetch itself (no
destination playlist creation, no search, no add), and the counters of
the empty loop are all zero. -/
theorem empty_playlist_skipped (env : Env) (p : SpotifyPlaylist)
    (h : fetchTrackPages (env.trackPages p.id) = .ok []) :
    transferPlaylist env p = ([.FetchTracks p.id], .ok .Skipped) ∧
    ∀ pid, reportOf (transferOutcomes env pid 0 []) = ⟨0, 0, 0⟩ := by
  refine ⟨?_, fun pid => rfl⟩
  unfold transferPlaylist
  rw [h]
  rfl

/-- Witness for `empty_playlist_skipped` at `envEmpty`. -/
theorem empty_playlist_skipped_witness :
    transferPlaylist envEmpty playlistA =
      ([.FetchTracks playlistA.id], .ok .Skipped) ∧
    ∀ pid, reportOf (transferOutcomes envEmpty pid 0 []) = ⟨0, 0, 0⟩ :=
  empty_playlist_skipped envEmpty playlistA (by decide)

/-- Claim C8: ByIds selection yields the sub-sequence of the source
listing whose ids are among the requested ids, in listing order; a
requested id matching no playlist is reported in the not-found list
(selection does not fail); All selection returns the full listing
unchanged. -/
theorem selection_modes (ps : List SpotifyPlaylist) (req : List String)
    (s : String) :
    (selectByIds ps req).Sublist ps ∧
    (∀ p, p ∈ selectByIds ps req ↔ p ∈ ps ∧ p.id ∈ req) ∧
    (s ∈ notFoundIds ps req ↔ s ∈ req ∧ ∀ p ∈ ps, p.id ≠ s) ∧
    selectAllPlaylists ps = ps := by
  refine ⟨List.filter_sublist ps, ?_, ?_, rfl⟩
  · intro p
    simp [selectByIds, List.mem_filter]
  · constructor
    · intro hs
      simp only [notFoundIds, selectByIds, List.mem_filter, List.any_eq_true,
        Bool.not_eq_true', Bool.not_eq_true, List.any_eq_false,
        decide_eq_true_eq, decide_eq_false_iff_not, List.elem_eq_mem] at hs ⊢
      obtain ⟨hreq, hall⟩ := hs
      refine ⟨hreq, fun p hp hid => ?_⟩
      exact hall p ⟨hp, by simpa [hid] using hreq⟩ hid
    · intro hs
      simp only [notFoundIds, selectByIds, List.mem_filter, List.any_eq_true,
        Bool.not_eq_true', Bool.not_eq_true, List.any_eq_false,
        decide_eq_true_eq, decide_eq_false_iff_not, List.elem_eq_mem]
      exact ⟨hs.1, fun p hp hid => hs.2 p hp.1 hid⟩

/-- Claim C10: the description handed to the destination is never empty:
the orchestrator substitutes a generated description when the source
playlist's description is empty, and the creation request body applies a
second fallback on an empty string, so every creation request carries a
non-empty description. -/
theorem created_description_nonempty (p : SpotifyPlaylist) (t : String)
    (env : Env) (ti d : String)
    (hmem : Effect.CreatePlaylist ti d ∈ (transferPlaylist env p).1) :
    newPlaylistDescription p ≠ "" ∧
    (createPlaylistBody t "").description =
      "Playlist migrated from Spotify - " ++ t ∧
    ti = p.name ∧ d = newPlaylistDescription p ∧
    (createPlaylistBody ti d).description ≠ "" := by
  have hdesc : newPlaylistDescription p ≠ "" := by
    unfold newPlaylistDescription
    by_cases hd : p.description = ""
    · simpa [hd] using
        prefixed_ne_empty "Migrated from Spotify: " p.name (by decide)
    · simp [hd]
  have hargs : ti = p.name ∧ d = newPlaylistDescription p := by
    cases hf : fetchTrackPages (env.trackPages p.id) with
    | error e =>
      unfold transferPlaylist at hmem
      rw [hf] at hmem
      simp at hmem
    | ok tracks =>
      unfold transferPlaylist at hmem
      rw [hf] at hmem
      by_cases hlen : tracks.length = 0
      · simp [hlen] at hmem
      · cases hc : createYouTubePlaylist
          (env.createResp p.name (newPlaylistDescription p)) with
        | none =>
          simp [hlen, hc] at hmem
          exact ⟨hmem.1, hmem.2⟩
        | some ytid =>
          simp [hlen, hc, createEffect_not_in_transferEffects] at hmem
          exact ⟨hmem.1, hmem.2⟩
  refine ⟨hdesc, rfl, hargs.1, hargs.2, ?_⟩
  rw [hargs.2]
  unfold createPlaylistBody
  simp [hdesc]

/-- Witness for `created_description_nonempty`: the creation request of
`playlistB` in `envCreateFail` carries its non-empty Spotify
description. -/
theorem created_description_nonempty_witness :
    newPlaylistDescription playlistB ≠ "" ∧
    (createPlaylistBody "T" "").description =
      "Playlist migrated from Spotify - " ++ "T" ∧
    "Second" = playlistB.name ∧
    "desc" = newPlaylistDescription playlistB ∧
    (createPlaylistBody "Second" "desc").description ≠ "" :=
  created_description_nonempty playlistB "T" envCreateFail "Second" "desc"
    (by decide)

end Porter
